import Mathlib

/-!
Shallow embedding of the `Starfield` class (the `src` JavaScript source:
particle field, projector, frame clock, two-phase performance controller,
and `updateConfig`).  JavaScript numbers are modelled as rationals,
`Math.round` as `jround`, and `Math.random()` draws as explicit rational
inputs constrained to `[0, 1)`.
-/

namespace Starfield

/-- JavaScript `Math.round`: round half away from negative infinity,
i.e. `Math.round x = ⌊x + 1/2⌋`. -/
def jround (x : ℚ) : ℤ := ⌊x + 1/2⌋

/-! ## FrameClock: the rolling FPS estimator (`_animate`, lines 1366-1383) -/

/-- Sum of consecutive timestamp differences, exactly the loop
`for (i = 1; i < ts.length; i++) total += ts[i] - ts[i-1]`. -/
def totalInterval : List ℚ → ℚ
  | a :: b :: rest => (b - a) + totalInterval (b :: rest)
  | _ => 0

/-- Mean consecutive interval `totalInterval / (ts.length - 1)`. -/
def avgInterval (ts : List ℚ) : ℚ := totalInterval ts / ((ts.length : ℚ) - 1)

/-- The rolling FPS estimate published by `_animate`: defined only once at
least 10 timestamps exist, and then `Math.round(1000 / avgInterval)`. -/
def estimateFPS (ts : List ℚ) : Option ℤ :=
  if 10 ≤ ts.length then some (jround (1000 / avgInterval ts)) else none

/-- The unrounded FPS measurement used inside `_runOptimization`
(line 1437): `measuredFPS = 1000 / avgInterval`. -/
def measuredFPS (ts : List ℚ) : ℚ := 1000 / avgInterval ts

/-- Push a timestamp and evict the oldest once more than 120 are stored
(`_animate`, lines 1367-1372). -/
def record (ts : List ℚ) (now : ℚ) : List ℚ :=
  let ts1 := ts ++ [now]
  if 120 < ts1.length then ts1.drop 1 else ts1

/-- Synthetic timestamps `a, a + d, a + 2d, ...` (`n` of them). -/
def equallySpaced (a d : ℚ) : ℕ → List ℚ
  | 0 => []
  | n + 1 => a :: equallySpaced (a + d) d n

/-! ## Configuration data model -/

/-- `starColors.hue`: either a scalar or an array (validated to length 2). -/
inductive HueSpec
  | scalar (h : ℚ)
  | arr (xs : List ℚ)
deriving DecidableEq

structure StarColorsCfg where
  hue : HueSpec
  saturation : ℚ
  lightness : ℚ
deriving DecidableEq

structure StarSizeCfg where
  min : ℚ
  max : ℚ
deriving DecidableEq

structure DeviceDetectionCfg where
  mobile : ℤ
  desktop : ℤ
deriving DecidableEq

/-- `config.starCount`: the string `'auto'` or a number. -/
inductive StarCountCfg
  | auto
  | fixed (n : ℤ)
deriving DecidableEq

structure Config where
  starCount : StarCountCfg
  maxStarCount : ℤ
  speed : ℚ
  focalLength : ℚ
  trailEffect : ℚ
  starColors : StarColorsCfg
  starSize : StarSizeCfg
  deviceDetection : DeviceDetectionCfg
deriving DecidableEq

/-- The `Starfield.defaults` static configuration. -/
def defaults : Config :=
  { starCount := .auto
    maxStarCount := 10000
    speed := 6/10
    focalLength := 300
    trailEffect := 3/10
    starColors := { hue := .arr [180, 260], saturation := 70, lightness := 90 }
    starSize := { min := 1/2, max := 2 }
    deviceDetection := { mobile := 200, desktop := 500 } }

/-! ## Particle sampling (`_createStar`, lines 1261-1274) -/

structure Particle where
  x : ℚ
  y : ℚ
  z : ℚ
  baseSize : ℚ
  hue : ℚ
deriving DecidableEq

/-- One bundle of the `Math.random()` draws a single star sampling uses. -/
structure Rand where
  rx : ℚ
  ry : ℚ
  rz : ℚ
  rs : ℚ
  rh : ℚ
deriving DecidableEq

/-- All draws of a bundle lie in `[0, 1)`, as `Math.random()` guarantees. -/
def Rand.inUnit (r : Rand) : Prop :=
  (0 ≤ r.rx ∧ r.rx < 1) ∧ (0 ≤ r.ry ∧ r.ry < 1) ∧ (0 ≤ r.rz ∧ r.rz < 1) ∧
    (0 ≤ r.rs ∧ r.rs < 1) ∧ (0 ≤ r.rh ∧ r.rh < 1)

instance (r : Rand) : Decidable r.inUnit := by unfold Rand.inUnit; infer_instance

/-- Destructuring `const [minHue, maxHue] = Array.isArray(hue) ? hue : [hue, hue]`. -/
def hueRange : HueSpec → ℚ × ℚ
  | .scalar h => (h, h)
  | .arr xs => (xs.headD 0, (xs.drop 1).headD 0)

/-- `_createStar`: sample a fresh particle from the configured ranges. -/
def createStar (cfg : Config) (r : Rand) : Particle :=
  let hr := hueRange cfg.starColors.hue
  { x := (r.rx - 1/2) * 2000
    y := (r.ry - 1/2) * 2000
    z := r.rz * 2000
    baseSize := cfg.starSize.min + r.rs * (cfg.starSize.max - cfg.starSize.min)
    hue := hr.1 + r.rh * (hr.2 - hr.1) }

/-! ## Projector and per-star rendering (`_project` / `_render`) -/

structure Projection where
  x : ℚ
  y : ℚ
  scale : ℚ
deriving DecidableEq

/-- `_project`: perspective projection, a pure function. -/
def project (focalLength centerX centerY : ℚ) (x y z : ℚ) : Projection :=
  let scale := focalLength / (focalLength + z)
  { x := centerX + x * scale
    y := centerY + y * scale
    scale := scale }

/-- One filled-disc draw command emitted by `_render` for a star. -/
structure DrawCmd where
  x : ℚ
  y : ℚ
  radius : ℚ
  hue : ℚ
  saturation : ℚ
  lightness : ℚ
  alpha : ℚ
deriving DecidableEq

/-- The per-star body of `_render`: project, skip when `scale ≤ 0`, else
draw a disc of radius `baseSize * scale` with alpha `min 1 (scale * 0.7)`. -/
def renderStar (cfg : Config) (cx cy : ℚ) (p : Particle) : Option DrawCmd :=
  let pr := project cfg.focalLength cx cy p.x p.y p.z
  if pr.scale ≤ 0 then none
  else some
    { x := pr.x
      y := pr.y
      radius := p.baseSize * pr.scale
      hue := p.hue
      saturation := cfg.starColors.saturation
      lightness := cfg.starColors.lightness
      alpha := min 1 (pr.scale * (7/10)) }

/-- The draw commands of one frame, in star order. -/
def render (cfg : Config) (cx cy : ℚ) (stars : List Particle) : List DrawCmd :=
  stars.filterMap (renderStar cfg cx cy)

/-! ## Particle-field mutation: advance (`_update`) and resize/restyle
(`updateConfig`, lines 1607-1640) -/

/-- Map over a star list feeding each position its own random bundle,
starting at stream index `i`. -/
def mapWithRng (f : Rand → Particle → Particle) (rng : ℕ → Rand) :
    List Particle → ℕ → List Particle
  | [], _ => []
  | p :: rest, i => f (rng i) p :: mapWithRng f rng rest (i + 1)

/-- Per-star body of `_update`: `z -= speed`, and full respawn (all five
fields) once `z ≤ -200`. -/
def advanceStar (cfg : Config) (r : Rand) (p : Particle) : Particle :=
  let z1 := p.z - cfg.speed
  if z1 ≤ -200 then createStar cfg r else { p with z := z1 }

/-- `_update`: advance every star, respawning expired ones in place. -/
def updateStars (cfg : Config) (rng : ℕ → Rand) (stars : List Particle) :
    List Particle :=
  mapWithRng (advanceStar cfg) rng stars 0

/-- The count-delta application inside `updateConfig` (lines 1614-1624):
grow by pushing freshly sampled stars, shrink by truncating the tail
(`splice(newCount)`), leave the list alone when the count is unchanged. -/
def applyCountStars (cfg : Config) (rng : ℕ → Rand) (oldCount newCount : ℤ)
    (stars : List Particle) : List Particle :=
  if oldCount < newCount then
    stars ++ (List.range (newCount - oldCount).toNat).map (fun i => createStar cfg (rng i))
  else if newCount < oldCount then
    stars.take newCount.toNat
  else stars

/-- Per-star body of the restyle branch of `updateConfig`
(lines 1632-1639): resample `baseSize` when the patch carries `starSize`,
and `hue` when it carries `starColors` with a `hue` entry. -/
def restyleStar (cfg : Config) (sizePresent huePresent : Bool) (r : Rand)
    (p : Particle) : Particle :=
  let p1 :=
    if sizePresent then
      { p with baseSize := cfg.starSize.min + r.rs * (cfg.starSize.max - cfg.starSize.min) }
    else p
  if huePresent then
    let hr := hueRange cfg.starColors.hue
    { p1 with hue := hr.1 + r.rh * (hr.2 - hr.1) }
  else p1

/-! ## Cold-start count detection (`_detectDeviceCapability`) -/

/-- Outcome of reading the persisted count: the storage threw, the key was
absent (or empty), the stored string did not parse to a number, or it
parsed to the integer `n`. -/
inductive CacheRead
  | throws
  | missing
  | nan
  | val (n : ℤ)
deriving DecidableEq

/-- Host environment consulted by `_detectDeviceCapability`: the cache
read outcome and whether the user agent looks mobile or low-end. -/
structure DetectEnv where
  cache : CacheRead
  mobileOrLowEnd : Bool
deriving DecidableEq

/-- The device-heuristic fallback count (lines 1234-1241). -/
def heuristicCount (env : DetectEnv) (cfg : Config) : ℤ :=
  if env.mobileOrLowEnd then cfg.deviceDetection.mobile else cfg.deviceDetection.desktop

/-- `_detectDeviceCapability`: use the cached count only when it parsed
and lies in `[100, maxStarCount]`; otherwise (including when the cache
throws) fall back to the device heuristic. Never raises. -/
def detectDeviceCapability (env : DetectEnv) (cfg : Config) : ℤ :=
  match env.cache with
  | .val n =>
      if 100 ≤ n ∧ n ≤ cfg.maxStarCount then n else heuristicCount env cfg
  | _ => heuristicCount env cfg

/-- The constructor's star-count determination (lines 1042-1045). -/
def initialStarCount (env : DetectEnv) (cfg : Config) : ℤ :=
  match cfg.starCount with
  | .auto => detectDeviceCapability env cfg
  | .fixed n => n

/-! ## PerformanceController (`_runOptimization`, lines 1402-1570) -/

/-- `aggressiveness = 0.75 + min(fpsRatio, 4) / 20` (line 1485). -/
def aggressiveness (r : ℚ) : ℚ := 3/4 + (min r 4) / 20

/-- Initial-calibration resize target (lines 1486-1487):
`round(count * (ratio * aggressiveness))` clamped to `[100, maxStarCount]`. -/
def calibClamped (maxStars count : ℤ) (r : ℚ) : ℤ :=
  max 100 (min maxStars (jround ((count : ℚ) * (r * aggressiveness r))))

/-- Continuous-optimization resize target (lines 1532-1541):
`round(count * (ratio * 0.9))`, step-clamped to
`[count - round(0.2 count), count + round(0.2 count)]`, then clamped to
`[100, maxStarCount]`. -/
def contClamped (maxStars count : ℤ) (r : ℚ) : ℤ :=
  let newStarCount := jround ((count : ℚ) * (r * (9/10)))
  let maxChange := jround ((count : ℚ) * (2/10))
  let stepped := max (count - maxChange) (min (count + maxChange) newStarCount)
  max 100 (min maxStars stepped)

/-- The continuous-phase decision (lines 1523-1548): `none` when the
measured ratio is acceptable or the clamped change is below 5% relative
magnitude (anti-jitter skip); otherwise `some` of the applied count. -/
def contAdjust (maxStars count : ℤ) (r : ℚ) : Option ℤ :=
  if 17/20 ≤ r ∧ r ≤ 13/10 then none
  else if |((contClamped maxStars count r - count : ℤ) : ℚ) / (count : ℚ)| < 1/20 then
    none
  else some (contClamped maxStars count r)

/-- The controller state embedded from `performanceStats` together with
the star count it steers (`this.starCount`). -/
structure OptState where
  complete : Bool
  attempts : ℕ
  calibrationStart : ℚ
  lastOpt : Option ℚ
  count : ℤ
deriving DecidableEq

/-- Controller state at the first animation frame: calibration phase,
zero attempts, window start at the first timestamp. -/
def initState (start : ℚ) (count : ℤ) : OptState :=
  { complete := false, attempts := 0, calibrationStart := start
    lastOpt := none, count := count }

/-- `_runOptimization(now)`: one controller evaluation over the current
timestamp window `ts`. Mirrors the source control flow: measurement-window
wait, continuous-phase rate limiting, sample-count guard, then the initial
calibration branch (terminal band `[0.9, 1.5]`, attempt cap 8, cap-reached
early exit) or the continuous branch (`contAdjust`). -/
def runOptimization (maxStars : ℤ) (now : ℚ) (ts : List ℚ) (s : OptState) :
    OptState :=
  if now - s.calibrationStart < (if s.complete then (3000 : ℚ) else 1000) then s
  else if s.complete &&
      (match s.lastOpt with
       | some t => decide (now - t < 10000)
       | none => false) then
    { s with calibrationStart := now }
  else if ts.length < 10 then s
  else if s.complete then
    match contAdjust maxStars s.count (measuredFPS ts / 60) with
    | none => { s with calibrationStart := now }
    | some c =>
        { s with calibrationStart := now, lastOpt := some now, count := c }
  else if (9/10 ≤ measuredFPS ts / 60 ∧ measuredFPS ts / 60 ≤ 3/2) ∨
      8 ≤ s.attempts then
    { s with complete := true, lastOpt := some now, calibrationStart := now }
  else if calibClamped maxStars s.count (measuredFPS ts / 60) = maxStars ∧
      s.count = maxStars ∧ 3/2 < measuredFPS ts / 60 then
    { s with attempts := s.attempts + 1, complete := true
             lastOpt := some now, calibrationStart := now }
  else
    { s with attempts := s.attempts + 1, calibrationStart := now
             count := calibClamped maxStars s.count (measuredFPS ts / 60) }

/-! ## The fixed-30-FPS calibration scenario (spec §8, claim about the
initial phase): a deterministic fake FPS source fixed at 30, target 60,
starting at 500 particles with the default `maxStarCount` of 10000. -/

/-- Eleven synthetic timestamps spaced exactly `100/3` ms apart: the
rolling estimator measures exactly 30 FPS on this window. -/
def ts30 : List ℚ :=
  [0, 100/3, 200/3, 100, 400/3, 500/3, 200, 700/3, 800/3, 300, 1000/3]

/-- One evaluation of the scenario: the controller is evaluated 1000 ms
after its current measurement-window start, always measuring 30 FPS. -/
def stepC2 (s : OptState) : OptState :=
  runOptimization 10000 (s.calibrationStart + 1000) ts30 s

/-- The scenario trace: state after `i` evaluations, from 500 stars. -/
def traceC2 (i : ℕ) : OptState := stepC2^[i] (initState 0 500)

/-! ## Configuration patches, validation and `updateConfig` -/

structure SizePatch where
  min : Option ℚ
  max : Option ℚ
deriving DecidableEq

structure ColorsPatch where
  hue : Option HueSpec
  saturation : Option ℚ
  lightness : Option ℚ
deriving DecidableEq

structure DevicePatch where
  mobile : Option ℤ
  desktop : Option ℤ
deriving DecidableEq

/-- A `newConfig` argument to `updateConfig`: every field optional. -/
structure ConfigPatch where
  starCount : Option StarCountCfg
  maxStarCount : Option ℤ
  speed : Option ℚ
  focalLength : Option ℚ
  trailEffect : Option ℚ
  starColors : Option ColorsPatch
  starSize : Option SizePatch
  deviceDetection : Option DevicePatch
deriving DecidableEq

/-- The empty patch (every field absent). -/
def emptyPatch : ConfigPatch :=
  { starCount := none, maxStarCount := none, speed := none
    focalLength := none, trailEffect := none, starColors := none
    starSize := none, deviceDetection := none }

/-- Presence-guarded range check: absent fields pass. -/
def okOpt (v : Option ℚ) (lo hi : ℚ) : Bool :=
  match v with
  | none => true
  | some x => decide (lo ≤ x ∧ x ≤ hi)

def okOptInt (v : Option ℤ) (lo hi : ℤ) : Bool :=
  match v with
  | none => true
  | some x => decide (lo ≤ x ∧ x ≤ hi)

/-- `_validateConfig` on a patch: `true` exactly when no check throws.
Mirrors lines 1103-1172: range checks per present option,
`starSize.min ≤ starSize.max` when both are present, and the hue array
must have exactly two in-range entries. -/
def validateConfig (p : ConfigPatch) : Bool :=
  okOpt p.speed (1/100) 10 &&
  okOpt p.focalLength 50 1000 &&
  okOpt p.trailEffect 0 1 &&
  (match p.starCount with
   | none => true
   | some .auto => true
   | some (.fixed n) => decide (1 ≤ n ∧ n ≤ 10000)) &&
  okOptInt p.maxStarCount 100 50000 &&
  (match p.starSize with
   | none => true
   | some sp =>
       okOpt sp.min (1/10) 10 && okOpt sp.max (1/10) 10 &&
       (match sp.min, sp.max with
        | some lo, some hi => decide (lo ≤ hi)
        | _, _ => true)) &&
  (match p.starColors with
   | none => true
   | some cp =>
       okOpt cp.saturation 0 100 && okOpt cp.lightness 0 100 &&
       (match cp.hue with
        | none => true
        | some (.scalar h) => decide (0 ≤ h ∧ h ≤ 360)
        | some (.arr xs) =>
            decide (xs.length = 2) &&
            decide (∀ x ∈ xs, 0 ≤ x ∧ x ≤ 360))) &&
  (match p.deviceDetection with
   | none => true
   | some dp => okOptInt dp.mobile 1 10000 && okOptInt dp.desktop 1 10000)

/-- `_mergeDeep` restricted to the typed configuration shape: present
patch fields override, nested objects merge fieldwise, the hue value
(scalar or array) is replaced wholesale. -/
def mergeConfig (c : Config) (p : ConfigPatch) : Config :=
  { starCount := p.starCount.getD c.starCount
    maxStarCount := p.maxStarCount.getD c.maxStarCount
    speed := p.speed.getD c.speed
    focalLength := p.focalLength.getD c.focalLength
    trailEffect := p.trailEffect.getD c.trailEffect
    starColors :=
      match p.starColors with
      | none => c.starColors
      | some cp =>
          { hue := cp.hue.getD c.starColors.hue
            saturation := cp.saturation.getD c.starColors.saturation
            lightness := cp.lightness.getD c.starColors.lightness }
    starSize :=
      match p.starSize with
      | none => c.starSize
      | some sp =>
          { min := sp.min.getD c.starSize.min
            max := sp.max.getD c.starSize.max }
    deviceDetection :=
      match p.deviceDetection with
      | none => c.deviceDetection
      | some dp =>
          { mobile := dp.mobile.getD c.deviceDetection.mobile
            desktop := dp.desktop.getD c.deviceDetection.desktop } }

/-- The instance state `updateConfig` touches (the drawing surface and
gradient cache are external collaborators and not embedded). -/
structure SF where
  config : Config
  starCount : ℤ
  stars : List Particle
  isRunning : Bool
deriving DecidableEq

/-- `updateConfig(newConfig)` (lines 1596-1648). The source order is:
read `wasRunning`, stop if running, validate (throwing on failure),
merge, apply the count delta (when `starCount` is present) or restyle
existing stars (when only `starColors`/`starSize` are present), restart
if it was running. A validation failure propagates with the instance
already stopped: the `error` branch carries the state left behind. -/
def updateConfig (env : DetectEnv) (rng : ℕ → Rand) (sf : SF)
    (p : ConfigPatch) : Except SF SF :=
  let wasRunning := sf.isRunning
  let stopped : SF := { sf with isRunning := false }
  if validateConfig p then
    let cfg := mergeConfig sf.config p
    if p.starCount.isSome then
      let newCount :=
        match cfg.starCount with
        | .auto => detectDeviceCapability env cfg
        | .fixed n => n
      let stars := applyCountStars cfg rng stopped.starCount newCount stopped.stars
      .ok { config := cfg, starCount := newCount, stars := stars
            isRunning := wasRunning }
    else if p.starColors.isSome || p.starSize.isSome then
      let huePresent :=
        match p.starColors with
        | some cp => cp.hue.isSome
        | none => false
      let stars := mapWithRng (restyleStar cfg p.starSize.isSome huePresent) rng stopped.stars 0
      .ok { config := cfg, starCount := stopped.starCount, stars := stars
            isRunning := wasRunning }
    else
      .ok { config := cfg, starCount := stopped.starCount
            stars := stopped.stars, isRunning := wasRunning }
  else
    .error stopped

/-! ## Theorems -/

lemma equallySpaced_length (a d : ℚ) (n : ℕ) :
    (equallySpaced a d n).length = n := by
  induction n generalizing a with
  | zero => simp [equallySpaced]
  | succ m ih => simp [equallySpaced, ih]

lemma totalInterval_equallySpaced (d : ℚ) (n : ℕ) :
    ∀ a : ℚ, totalInterval (equallySpaced a d (n + 1)) = n * d := by
  induction n with
  | zero => intro a; simp [equallySpaced, totalInterval]
  | succ m ih =>
      intro a
      have h1 : equallySpaced a d (m + 1 + 1)
          = a :: (a + d) :: equallySpaced (a + d + d) d m := rfl
      have h2 : equallySpaced (a + d) d (m + 1)
          = (a + d) :: equallySpaced (a + d + d) d m := rfl
      rw [h1, totalInterval, ← h2, ih (a + d)]
      push_cast
      ring

/-- C4: the FPS estimate is defined exactly once at least 10 timestamps
are recorded and equals `round(1000 / mean consecutive delta)`; on any
`n ≥ 10` timestamps spaced exactly `d` ms apart it equals
`round(1000 / d)`, and with fewer than 10 samples it is undefined. -/
theorem fps_estimate_spec :
    (∀ (a d : ℚ) (n : ℕ), 10 ≤ n → 0 < d →
      estimateFPS (equallySpaced a d n) = some (jround (1000 / d))) ∧
    (∀ ts : List ℚ, 10 ≤ ts.length →
      estimateFPS ts = some (jround (1000 / avgInterval ts))) ∧
    (∀ ts : List ℚ, ts.length < 10 → estimateFPS ts = none) := by
  refine ⟨?_, ?_, ?_⟩
  · intro a d n hn _hd
    obtain ⟨m, rfl⟩ : ∃ m, n = m + 1 := ⟨n - 1, by omega⟩
    rw [estimateFPS, if_pos (by rw [equallySpaced_length]; exact hn)]
    have hm : (m : ℚ) ≠ 0 := by
      have : 9 ≤ m := by omega
      exact_mod_cast by omega
    have havg : avgInterval (equallySpaced a d (m + 1)) = d := by
      rw [avgInterval, totalInterval_equallySpaced, equallySpaced_length]
      push_cast
      rw [add_sub_cancel_right, mul_comm, mul_div_assoc, div_self hm, mul_one]
    rw [havg]
  · intro ts h
    rw [estimateFPS, if_pos h]
  · intro ts h
    rw [estimateFPS, if_neg (by omega)]

/-- Witness for C4: 12 timestamps spaced 16.667 ms apart estimate 60 FPS. -/
theorem fps_estimate_witness :
    estimateFPS (equallySpaced 0 (16667/1000) 12) = some 60 := by
  have h := fps_estimate_spec.1 0 (16667/1000) 12 (by norm_num) (by norm_num)
  rw [h]
  norm_num [jround]

/-- C8: projection is the pure map `scale = f/(f+z)`,
`screenX = cx + x scale`, `screenY = cy + y scale` (it is a Lean function,
hence side-effect free), and a star produces a draw command exactly when
its scale is positive, the command being a disc of radius
`baseSize * scale` at the projected point with alpha `min 1 (0.7 scale)`
and the configured saturation/lightness. -/
theorem projector_render_spec :
    ∀ (cfg : Config) (cx cy : ℚ) (p : Particle),
      (project cfg.focalLength cx cy p.x p.y p.z).scale
          = cfg.focalLength / (cfg.focalLength + p.z) ∧
      (project cfg.focalLength cx cy p.x p.y p.z).x
          = cx + p.x * (cfg.focalLength / (cfg.focalLength + p.z)) ∧
      (project cfg.focalLength cx cy p.x p.y p.z).y
          = cy + p.y * (cfg.focalLength / (cfg.focalLength + p.z)) ∧
      ((renderStar cfg cx cy p).isSome = true ↔
        0 < (project cfg.focalLength cx cy p.x p.y p.z).scale) ∧
      (∀ c, renderStar cfg cx cy p = some c →
        c.x = (project cfg.focalLength cx cy p.x p.y p.z).x ∧
        c.y = (project cfg.focalLength cx cy p.x p.y p.z).y ∧
        c.radius = p.baseSize * (project cfg.focalLength cx cy p.x p.y p.z).scale ∧
        c.hue = p.hue ∧
        c.saturation = cfg.starColors.saturation ∧
        c.lightness = cfg.starColors.lightness ∧
        c.alpha = min 1 ((project cfg.focalLength cx cy p.x p.y p.z).scale * (7/10))) ∧
      (∀ stars : List Particle,
        render cfg cx cy stars = stars.filterMap (renderStar cfg cx cy)) := by
  intro cfg cx cy p
  refine ⟨rfl, rfl, rfl, ?_, ?_, fun _ => rfl⟩
  · by_cases h : (project cfg.focalLength cx cy p.x p.y p.z).scale ≤ 0
    · simp [renderStar, h, not_lt.mpr h]
    · simp [renderStar, h, lt_of_not_le h]
  · intro c hc
    rw [renderStar] at hc
    by_cases h : (project cfg.focalLength cx cy p.x p.y p.z).scale ≤ 0
    · rw [if_pos h] at hc
      exact absurd hc (by simp)
    · rw [if_neg h] at hc
      have := (Option.some.injEq _ _).mp hc
      subst this
      exact ⟨rfl, rfl, rfl, rfl, rfl, rfl, rfl⟩

/-- Witness for C8: the default configuration at the origin with `z = 0`
projects to scale 1 and is drawn. -/
theorem projector_render_witness :
    (renderStar defaults 0 0 ⟨0, 0, 0, 1, 200⟩).isSome = true := by
  have h := (projector_render_spec defaults 0 0 ⟨0, 0, 0, 1, 200⟩).2.2.2.1
  rw [h]
  norm_num [project, defaults]

lemma mapWithRng_length (f : Rand → Particle → Particle) (rng : ℕ → Rand) :
    ∀ (l : List Particle) (k : ℕ), (mapWithRng f rng l k).length = l.length := by
  intro l
  induction l with
  | nil => intro k; simp [mapWithRng]
  | cons a t ih => intro k; simp [mapWithRng, ih]

lemma mapWithRng_getD (f : Rand → Particle → Particle) (rng : ℕ → Rand) :
    ∀ (l : List Particle) (k i : ℕ) (p0 : Particle), i < l.length →
      (mapWithRng f rng l k).getD i p0 = f (rng (k + i)) (l.getD i p0) := by
  intro l
  induction l with
  | nil => intro k i p0 h; simp at h
  | cons a t ih =>
      intro k i p0 h
      cases i with
      | zero => simp [mapWithRng]
      | succ j =>
          have hj : j < t.length := by simpa using h
          simp only [mapWithRng, List.getD_cons_succ]
          rw [ih (k + 1) j p0 hj, show k + (j + 1) = k + 1 + j from by omega]

lemma mem_mapWithRng (f : Rand → Particle → Particle) (rng : ℕ → Rand) :
    ∀ (l : List Particle) (k : ℕ) (q : Particle),
      q ∈ mapWithRng f rng l k → ∃ i p, p ∈ l ∧ q = f (rng i) p := by
  intro l
  induction l with
  | nil => intro k q h; simp [mapWithRng] at h
  | cons a t ih =>
      intro k q h
      rw [mapWithRng] at h
      rcases List.mem_cons.mp h with h1 | h1
      · exact ⟨k, a, List.mem_cons_self a t, h1⟩
      · obtain ⟨i, p, hp, hq⟩ := ih (k + 1) q h1
        exact ⟨i, p, List.mem_cons_of_mem a hp, hq⟩

lemma createStar_bounds (cfg : Config) (r : Rand) (hr : r.inUnit) :
    0 ≤ (createStar cfg r).z ∧ (createStar cfg r).z < 2000 ∧
    -1000 ≤ (createStar cfg r).x ∧ (createStar cfg r).x < 1000 ∧
    -1000 ≤ (createStar cfg r).y ∧ (createStar cfg r).y < 1000 := by
  obtain ⟨⟨hx0, hx1⟩, ⟨hy0, hy1⟩, ⟨hz0, hz1⟩, _, _⟩ := hr
  refine ⟨?_, ?_, ?_, ?_, ?_, ?_⟩ <;> simp only [createStar] <;> nlinarith

/-- C6: after every advance step every particle has `z > -200`; a particle
whose decremented `z` falls to `-200` or below is replaced in place by a
fully fresh sample of all five fields, with `z ∈ [0, 2000)` and
`x, y ∈ [-1000, 1000)`, while any surviving particle merely has its `z`
decremented by the configured speed. -/
theorem advance_respawn_spec :
    ∀ (cfg : Config) (rng : ℕ → Rand) (stars : List Particle),
      (∀ i, (rng i).inUnit) →
      (∀ q ∈ updateStars cfg rng stars, -200 < q.z) ∧
      (∀ (i : ℕ) (p0 : Particle), i < stars.length →
        (((stars.getD i p0).z - cfg.speed ≤ -200 →
            (updateStars cfg rng stars).getD i p0 = createStar cfg (rng i) ∧
            0 ≤ (createStar cfg (rng i)).z ∧ (createStar cfg (rng i)).z < 2000 ∧
            -1000 ≤ (createStar cfg (rng i)).x ∧ (createStar cfg (rng i)).x < 1000 ∧
            -1000 ≤ (createStar cfg (rng i)).y ∧ (createStar cfg (rng i)).y < 1000) ∧
          (-200 < (stars.getD i p0).z - cfg.speed →
            (updateStars cfg rng stars).getD i p0
                = { stars.getD i p0 with z := (stars.getD i p0).z - cfg.speed }))) := by
  intro cfg rng stars hr
  constructor
  · intro q hq
    obtain ⟨i, p, _, rfl⟩ := mem_mapWithRng (advanceStar cfg) rng stars 0 q hq
    rw [advanceStar]
    by_cases h : p.z - cfg.speed ≤ -200
    · rw [if_pos h]
      have := (createStar_bounds cfg (rng i) (hr i)).1
      linarith
    · rw [if_neg h]
      simpa using lt_of_not_le h
  · intro i p0 hi
    have hget := mapWithRng_getD (advanceStar cfg) rng stars 0 i p0 hi
    rw [Nat.zero_add] at hget
    constructor
    · intro hz
      rw [updateStars, hget, advanceStar, if_pos hz]
      exact ⟨rfl, createStar_bounds cfg (rng i) (hr i)⟩
    · intro hz
      rw [updateStars, hget, advanceStar, if_neg (not_le.mpr hz)]

/-- Witness for C6: a star at the origin only drifts by the default speed
of 0.6, keeping all other fields. -/
theorem advance_respawn_witness :
    (updateStars defaults (fun _ => ⟨0, 0, 0, 0, 0⟩) [⟨0, 0, 0, 1, 200⟩]).getD 0
        ⟨0, 0, 0, 0, 0⟩ = ⟨0, 0, 0 - defaults.speed, 1, 200⟩ := by
  have h := ((advance_respawn_spec defaults (fun _ => ⟨0, 0, 0, 0, 0⟩)
      [⟨0, 0, 0, 1, 200⟩]
      (by intro i; refine ⟨⟨?_, ?_⟩, ⟨?_, ?_⟩, ⟨?_, ?_⟩, ⟨?_, ?_⟩, ⟨?_, ?_⟩⟩ <;>
        norm_num)).2 0 ⟨0, 0, 0, 0, 0⟩ (by norm_num)).2
  have h2 := h (by norm_num [defaults])
  simpa using h2

lemma applyCountStars_getD_kept (cfg : Config) (rng : ℕ → Rand)
    (oldCount newCount : ℤ) (stars : List Particle) (i : ℕ) (p0 : Particle)
    (h1 : i < stars.length)
    (h2 : i < (applyCountStars cfg rng oldCount newCount stars).length) :
    (applyCountStars cfg rng oldCount newCount stars).getD i p0
        = stars.getD i p0 := by
  rw [applyCountStars] at h2 ⊢
  by_cases hg : oldCount < newCount
  · rw [if_pos hg] at h2 ⊢
    exact List.getD_append _ _ _ _ h1
  · rw [if_neg hg] at h2 ⊢
    by_cases hs : newCount < oldCount
    · rw [if_pos hs] at h2 ⊢
      rw [List.getD_eq_getElem?_getD, List.getD_eq_getElem?_getD,
        List.getElem?_take]
      rw [List.length_take] at h2
      rw [if_pos (by omega)]
    · rw [if_neg hs]

/-- C5: resizing never resamples kept particles — growing appends freshly
sampled particles leaving the existing prefix identical, shrinking
truncates from the tail — and growing a 200-particle field to 250 and
shrinking back to 200 restores exactly the original particles. -/
theorem resize_kept_spec :
    ∀ (cfg cfg2 : Config) (rngA rngB : ℕ → Rand) (stars : List Particle),
      (∀ (oldCount newCount : ℤ) (i : ℕ) (p0 : Particle),
        i < stars.length →
        i < (applyCountStars cfg rngA oldCount newCount stars).length →
        (applyCountStars cfg rngA oldCount newCount stars).getD i p0
            = stars.getD i p0) ∧
      (stars.length = 200 →
        applyCountStars cfg2 rngB 250 200
          (applyCountStars cfg rngA 200 250 stars) = stars) := by
  intro cfg cfg2 rngA rngB stars
  constructor
  · intro oldCount newCount i p0 h1 h2
    exact applyCountStars_getD_kept cfg rngA oldCount newCount stars i p0 h1 h2
  · intro hlen
    have hfst : applyCountStars cfg rngA 200 250 stars
        = stars ++ (List.range 50).map (fun i => createStar cfg (rngA i)) := by
      rw [applyCountStars, if_pos (by norm_num)]
      norm_num
      rfl
    rw [hfst, applyCountStars, if_neg (by norm_num), if_pos (by norm_num)]
    exact List.take_left' (by rw [hlen]; rfl)

/-- Witness for C5: a concrete 200-particle field survives the 250-grow
plus 200-shrink round trip unchanged. -/
theorem resize_kept_witness :
    applyCountStars defaults (fun _ => ⟨0, 0, 0, 0, 0⟩) 250 200
        (applyCountStars defaults (fun _ => ⟨0, 0, 0, 0, 0⟩) 200 250
          (List.replicate 200 ⟨0, 0, 0, 1, 200⟩))
      = List.replicate 200 ⟨0, 0, 0, 1, 200⟩ :=
  (resize_kept_spec defaults defaults (fun _ => ⟨0, 0, 0, 0, 0⟩)
      (fun _ => ⟨0, 0, 0, 0, 0⟩) (List.replicate 200 ⟨0, 0, 0, 1, 200⟩)).2
    (List.length_replicate 200 _)

/-- Counterexample to C1 as stated: at 103 particles and measured ratio
1.4 (outside `[0.85, 1.3]`), the continuous phase applies a resize to 124
particles — a change of 21, which exceeds 20% of the current count
(`103 * 0.2 = 20.6`), because the step clamp uses the rounded bound
`Math.round(count * 0.2) = 21`. -/
theorem cont_step_bound_cex :
    contAdjust 10000 103 (7/5) = some 124 ∧
      ¬((|(124 - 103 : ℤ)| : ℚ) ≤ (103 : ℚ) * (2/10)) := by
  constructor
  · rw [contAdjust, if_neg (by norm_num)]
    rw [show contClamped 10000 103 (7/5) = 124 from by
      norm_num [contClamped, jround]]
    rw [if_neg (by norm_num [le_abs])]
  · norm_num

/-- C1 (amended): in the continuous phase, starting from a count already
inside `[100, maxStarCount]`, every applied adjustment changes the count
by at most `round(0.2 * count)` — i.e. by at most 20% of the current count
plus the half-particle rounding slack — and no applied adjustment has
relative magnitude below 5%; adjustments below 5% are discarded. -/
theorem cont_step_bound_spec :
    ∀ (maxStars count n : ℤ) (r : ℚ),
      100 ≤ count → count ≤ maxStars →
      contAdjust maxStars count r = some n →
      |n - count| ≤ jround ((count : ℚ) * (2/10)) ∧
      (jround ((count : ℚ) * (2/10)) : ℚ) ≤ (count : ℚ) * (2/10) + 1/2 ∧
      1/20 ≤ |((n - count : ℤ) : ℚ) / (count : ℚ)| := by
  intro maxStars count n r h100 hmax hsome
  rw [contAdjust] at hsome
  by_cases hband : 17/20 ≤ r ∧ r ≤ 13/10
  · rw [if_pos hband] at hsome
    exact absurd hsome (by simp)
  · rw [if_neg hband] at hsome
    by_cases hsmall :
        |((contClamped maxStars count r - count : ℤ) : ℚ) / (count : ℚ)| < 1/20
    · rw [if_pos hsmall] at hsome
      exact absurd hsome (by simp)
    · rw [if_neg hsmall] at hsome
      have hn : n = contClamped maxStars count r := (Option.some.injEq _ _).mp hsome.symm
      subst hn
      have hfloor : (jround ((count : ℚ) * (2/10)) : ℚ) ≤ (count : ℚ) * (2/10) + 1/2 :=
        Int.floor_le _
      have hfloor0 : 0 ≤ jround ((count : ℚ) * (2/10)) := by
        rw [jround]
        apply Int.le_floor.mpr
        push_cast
        have : (100 : ℚ) ≤ (count : ℚ) := by exact_mod_cast h100
        linarith
      refine ⟨?_, hfloor, not_lt.mp hsmall⟩
      rw [contClamped]
      set mc := jround ((count : ℚ) * (2/10)) with hmc
      set ns := jround ((count : ℚ) * (r * (9/10))) with hns
      rw [abs_le]
      constructor <;> omega

/-- Witness for C1: at 500 particles and ratio 0.5 the continuous phase
resizes to 400, a change of exactly 100 = round(0.2 * 500). -/
theorem cont_step_bound_witness :
    |(400 - 500 : ℤ)| ≤ jround ((500 : ℚ) * (2/10)) := by
  have h := cont_step_bound_spec 10000 500 400 (1/2) (by norm_num) (by norm_num)
    (by
      rw [contAdjust, if_neg (by norm_num)]
      rw [show contClamped 10000 500 (1/2) = 400 from by
        norm_num [contClamped, jround]]
      rw [if_neg (by norm_num [le_abs])])
  exact h.1

lemma runOptimization_calib_terminal (maxStars : ℤ) (now : ℚ) (ts : List ℚ)
    (s : OptState) (h1 : s.complete = false)
    (h2 : ¬(now - s.calibrationStart < 1000)) (h3 : ¬(ts.length < 10))
    (h4 : (9/10 ≤ measuredFPS ts / 60 ∧ measuredFPS ts / 60 ≤ 3/2) ∨
      8 ≤ s.attempts) :
    runOptimization maxStars now ts s
        = { s with complete := true, lastOpt := some now
                   calibrationStart := now } := by
  rw [runOptimization, h1]
  rw [if_neg (by simpa using h2), if_neg (by simp), if_neg h3, if_neg (by simp),
    if_pos h4]

lemma runOptimization_calib_adjust (maxStars : ℤ) (now : ℚ) (ts : List ℚ)
    (s : OptState) (h1 : s.complete = false)
    (h2 : ¬(now - s.calibrationStart < 1000)) (h3 : ¬(ts.length < 10))
    (h4 : ¬((9/10 ≤ measuredFPS ts / 60 ∧ measuredFPS ts / 60 ≤ 3/2) ∨
      8 ≤ s.attempts)) :
    runOptimization maxStars now ts s =
      if calibClamped maxStars s.count (measuredFPS ts / 60) = maxStars ∧
          s.count = maxStars ∧ 3/2 < measuredFPS ts / 60 then
        { s with attempts := s.attempts + 1, complete := true
                 lastOpt := some now, calibrationStart := now }
      else
        { s with attempts := s.attempts + 1, calibrationStart := now
                 count := calibClamped maxStars s.count (measuredFPS ts / 60) } := by
  rw [runOptimization, h1]
  rw [if_neg (by simpa using h2), if_neg (by simp), if_neg h3, if_neg (by simp),
    if_neg h4]

/-- C3: on a non-terminal initial-calibration evaluation the resulting
particle count equals
`round(count * fpsRatio * (0.75 + min(fpsRatio, 4)/20))` clamped to
`[100, maxStarCount]`; the aggressiveness factor is monotonically
non-decreasing in the ratio and saturates at 0.95 from ratio 4 on. -/
theorem calib_adjust_spec :
    ∀ (maxStars : ℤ) (now : ℚ) (ts : List ℚ) (s : OptState),
      s.complete = false →
      1000 ≤ now - s.calibrationStart →
      10 ≤ ts.length →
      ¬(9/10 ≤ measuredFPS ts / 60 ∧ measuredFPS ts / 60 ≤ 3/2) →
      s.attempts < 8 →
      (runOptimization maxStars now ts s).count
          = calibClamped maxStars s.count (measuredFPS ts / 60) ∧
      calibClamped maxStars s.count (measuredFPS ts / 60)
          = max 100 (min maxStars (jround ((s.count : ℚ) *
              (measuredFPS ts / 60 * aggressiveness (measuredFPS ts / 60))))) ∧
      (∀ r1 r2 : ℚ, r1 ≤ r2 → aggressiveness r1 ≤ aggressiveness r2) ∧
      (∀ r : ℚ, 4 ≤ r → aggressiveness r = 19/20) := by
  intro maxStars now ts s h1 h2 h3 hband hatt
  refine ⟨?_, rfl, ?_, ?_⟩
  · rw [runOptimization_calib_adjust maxStars now ts s h1 (by linarith)
      (by omega) (not_or.mpr ⟨hband, by omega⟩)]
    by_cases hcap : calibClamped maxStars s.count (measuredFPS ts / 60) = maxStars ∧
        s.count = maxStars ∧ 3/2 < measuredFPS ts / 60
    · rw [if_pos hcap]
      show s.count = _
      rw [hcap.1]
      exact hcap.2.1
    · rw [if_neg hcap]
  · intro r1 r2 h
    rw [aggressiveness, aggressiveness]
    have : min r1 4 ≤ min r2 4 := min_le_min h le_rfl
    linarith
  · intro r hr
    rw [aggressiveness, min_eq_right hr]
    norm_num

/-- Witness for C3: from 500 stars at exactly 30 measured FPS (ratio 0.5)
the first calibration adjustment lands on 194 stars. -/
theorem calib_adjust_witness :
    (runOptimization 10000 1000 ts30 (initState 0 500)).count
        = calibClamped 10000 500 (measuredFPS ts30 / 60) := by
  have h := (calib_adjust_spec 10000 1000 ts30 (initState 0 500) rfl
    (by norm_num [initState]) (by norm_num [ts30])
    (by norm_num [measuredFPS, avgInterval, totalInterval, ts30])
    (by norm_num [initState])).1
  exact h

lemma measuredFPS_ts30 : measuredFPS ts30 = 30 := by
  norm_num [measuredFPS, avgInterval, totalInterval, ts30]

lemma stepC2_500 (t : ℚ) (a : ℕ) (h : a < 8) :
    stepC2 ⟨false, a, t, none, 500⟩ = ⟨false, a + 1, t + 1000, none, 194⟩ := by
  rw [stepC2]
  rw [runOptimization_calib_adjust 10000 _ ts30 _ rfl (by simp)
    (by norm_num [ts30])
    (by rw [measuredFPS_ts30]; exact not_or.mpr ⟨by norm_num, by show ¬(8 ≤ a); omega⟩)]
  rw [measuredFPS_ts30]
  rw [if_neg (by norm_num [calibClamped, jround, aggressiveness])]
  norm_num [calibClamped, jround, aggressiveness]

lemma stepC2_194 (t : ℚ) (a : ℕ) (h : a < 8) :
    stepC2 ⟨false, a, t, none, 194⟩ = ⟨false, a + 1, t + 1000, none, 100⟩ := by
  rw [stepC2]
  rw [runOptimization_calib_adjust 10000 _ ts30 _ rfl (by simp)
    (by norm_num [ts30])
    (by rw [measuredFPS_ts30]; exact not_or.mpr ⟨by norm_num, by show ¬(8 ≤ a); omega⟩)]
  rw [measuredFPS_ts30]
  rw [if_neg (by norm_num [calibClamped, jround, aggressiveness])]
  norm_num [calibClamped, jround, aggressiveness]

lemma stepC2_100 (t : ℚ) (a : ℕ) (h : a < 8) :
    stepC2 ⟨false, a, t, none, 100⟩ = ⟨false, a + 1, t + 1000, none, 100⟩ := by
  rw [stepC2]
  rw [runOptimization_calib_adjust 10000 _ ts30 _ rfl (by simp)
    (by norm_num [ts30])
    (by rw [measuredFPS_ts30]; exact not_or.mpr ⟨by norm_num, by show ¬(8 ≤ a); omega⟩)]
  rw [measuredFPS_ts30]
  rw [if_neg (by norm_num [calibClamped, jround, aggressiveness])]
  norm_num [calibClamped, jround, aggressiveness]

lemma stepC2_done (t : ℚ) :
    stepC2 ⟨false, 8, t, none, 100⟩ = ⟨true, 8, t + 1000, some (t + 1000), 100⟩ := by
  rw [stepC2]
  rw [runOptimization_calib_terminal 10000 _ ts30 _ rfl (by simp)
    (by norm_num [ts30]) (Or.inr (by norm_num))]

lemma traceC2_succ (i : ℕ) : traceC2 (i + 1) = stepC2 (traceC2 i) := by
  rw [traceC2, traceC2, Function.iterate_succ_apply']

lemma traceC2_vals :
    traceC2 0 = ⟨false, 0, 0, none, 500⟩ ∧
    traceC2 1 = ⟨false, 1, 1000, none, 194⟩ ∧
    traceC2 2 = ⟨false, 2, 2000, none, 100⟩ ∧
    traceC2 3 = ⟨false, 3, 3000, none, 100⟩ ∧
    traceC2 4 = ⟨false, 4, 4000, none, 100⟩ ∧
    traceC2 5 = ⟨false, 5, 5000, none, 100⟩ ∧
    traceC2 6 = ⟨false, 6, 6000, none, 100⟩ ∧
    traceC2 7 = ⟨false, 7, 7000, none, 100⟩ ∧
    traceC2 8 = ⟨false, 8, 8000, none, 100⟩ ∧
    traceC2 9 = ⟨true, 8, 9000, some 9000, 100⟩ := by
  have t0 : traceC2 0 = ⟨false, 0, 0, none, 500⟩ := rfl
  have t1 : traceC2 1 = ⟨false, 1, 1000, none, 194⟩ := by
    have h := traceC2_succ 0
    norm_num at h
    rw [h, t0, stepC2_500 0 0 (by norm_num)]
    norm_num
  have t2 : traceC2 2 = ⟨false, 2, 2000, none, 100⟩ := by
    have h := traceC2_succ 1
    norm_num at h
    rw [h, t1, stepC2_194 1000 1 (by norm_num)]
    norm_num
  have t3 : traceC2 3 = ⟨false, 3, 3000, none, 100⟩ := by
    have h := traceC2_succ 2
    norm_num at h
    rw [h, t2, stepC2_100 2000 2 (by norm_num)]
    norm_num
  have t4 : traceC2 4 = ⟨false, 4, 4000, none, 100⟩ := by
    have h := traceC2_succ 3
    norm_num at h
    rw [h, t3, stepC2_100 3000 3 (by norm_num)]
    norm_num
  have t5 : traceC2 5 = ⟨false, 5, 5000, none, 100⟩ := by
    have h := traceC2_succ 4
    norm_num at h
    rw [h, t4, stepC2_100 4000 4 (by norm_num)]
    norm_num
  have t6 : traceC2 6 = ⟨false, 6, 6000, none, 100⟩ := by
    have h := traceC2_succ 5
    norm_num at h
    rw [h, t5, stepC2_100 5000 5 (by norm_num)]
    norm_num
  have t7 : traceC2 7 = ⟨false, 7, 7000, none, 100⟩ := by
    have h := traceC2_succ 6
    norm_num at h
    rw [h, t6, stepC2_100 6000 6 (by norm_num)]
    norm_num
  have t8 : traceC2 8 = ⟨false, 8, 8000, none, 100⟩ := by
    have h := traceC2_succ 7
    norm_num at h
    rw [h, t7, stepC2_100 7000 7 (by norm_num)]
    norm_num
  have t9 : traceC2 9 = ⟨true, 8, 9000, some 9000, 100⟩ := by
    have h := traceC2_succ 8
    norm_num at h
    rw [h, t8, stepC2_done 8000]
    norm_num
  exact ⟨t0, t1, t2, t3, t4, t5, t6, t7, t8, t9⟩

/-- C2: the controller starts in the initial-calibration phase and the
phase flag moves one way only; in the fixed-30-FPS scenario from 500
particles the count trace over nine evaluations is
`500, 194, 100, ..., 100` (monotonically non-increasing), the transition
to continuous optimization happens on the ninth evaluation once the
attempt counter has reached 8, exactly 8 resize attempts were made, and
the measured ratio 0.5 never lies in the acceptance band `[0.9, 1.5]`. -/
theorem calibration_phase_spec :
    (∀ (start : ℚ) (count : ℤ), (initState start count).complete = false) ∧
    (∀ (maxStars : ℤ) (now : ℚ) (ts : List ℚ) (s : OptState),
      s.complete = true → (runOptimization maxStars now ts s).complete = true) ∧
    measuredFPS ts30 / 60 = 1/2 ∧
    ¬(9/10 ≤ measuredFPS ts30 / 60 ∧ measuredFPS ts30 / 60 ≤ 3/2) ∧
    ((List.range 10).map fun i => (traceC2 i).count)
        = [500, 194, 100, 100, 100, 100, 100, 100, 100, 100] ∧
    (∀ i, i < 9 → (traceC2 (i + 1)).count ≤ (traceC2 i).count) ∧
    (traceC2 8).complete = false ∧
    (traceC2 9).complete = true ∧
    (traceC2 9).attempts = 8 := by
  obtain ⟨t0, t1, t2, t3, t4, t5, t6, t7, t8, t9⟩ := traceC2_vals
  refine ⟨fun _ _ => rfl, ?_, by rw [measuredFPS_ts30]; norm_num, ?_, ?_, ?_, ?_, ?_, ?_⟩
  · intro maxStars now ts s h
    by_cases hw : now - s.calibrationStart < (if s.complete then (3000 : ℚ) else 1000)
    · rw [runOptimization, if_pos hw]; exact h
    · rw [runOptimization, if_neg hw]
      by_cases hb : (s.complete &&
          (match s.lastOpt with
           | some t => decide (now - t < 10000)
           | none => false)) = true
      · rw [if_pos hb]; exact h
      · rw [if_neg hb]
        by_cases hts : ts.length < 10
        · rw [if_pos hts]; exact h
        · rw [if_neg hts, if_pos h]
          cases contAdjust maxStars s.count (measuredFPS ts / 60) with
          | none => exact h
          | some c => exact h
  · rw [measuredFPS_ts30]; norm_num
  · rw [show List.range 10 = [0, 1, 2, 3, 4, 5, 6, 7, 8, 9] from rfl]
    rw [List.map_cons, List.map_cons, List.map_cons, List.map_cons,
      List.map_cons, List.map_cons, List.map_cons, List.map_cons,
      List.map_cons, List.map_cons, List.map_nil]
    rw [t0, t1, t2, t3, t4, t5, t6, t7, t8, t9]
  · intro i hi
    interval_cases i <;>
      simp only [Nat.reduceAdd, t0, t1, t2, t3, t4, t5, t6, t7, t8, t9] <;>
      norm_num
  · rw [t8]
  · rw [t9]
  · rw [t9]

/-- Witness for C2: the one-way transition conjunct applied to a concrete
completed state. -/
theorem calibration_phase_witness :
    (runOptimization 10000 20000 ts30 ⟨true, 8, 9000, some 9000, 100⟩).complete
        = true :=
  calibration_phase_spec.2.1 10000 20000 ts30 ⟨true, 8, 9000, some 9000, 100⟩ rfl

/-- Counterexample to C7 as stated: the source stops a running instance
BEFORE validating (`if (wasRunning) this.stop()` precedes
`_validateConfig`), so an invalid update on a running instance leaves it
stopped — the prior running state is not restored. -/
theorem updateConfig_atomic_cex :
    updateConfig ⟨.missing, false⟩ (fun _ => ⟨0, 0, 0, 0, 0⟩)
        ⟨defaults, 0, [], true⟩ { emptyPatch with trailEffect := some 2 }
      = .error ⟨defaults, 0, [], false⟩ ∧
    ((⟨defaults, 0, [], false⟩ : SF).isRunning
        ≠ (⟨defaults, 0, [], true⟩ : SF).isRunning) := by
  constructor
  · have hv : validateConfig { emptyPatch with trailEffect := some 2 } = false := by
      norm_num [validateConfig, emptyPatch, okOpt, okOptInt]
    simp only [updateConfig, hv]
    rfl
  · simp

/-- C7 (amended): `updateConfig` reads the running flag, stops the
instance, and only then validates; an invalid partial configuration makes
it raise before any merge, so the configuration, particle list and count
are left untouched — but the instance remains stopped rather than
restored to its prior running state. A valid update merges and restores
the prior running flag. -/
theorem updateConfig_atomic_spec :
    ∀ (env : DetectEnv) (rng : ℕ → Rand) (sf : SF) (p : ConfigPatch),
      (validateConfig p = false →
        updateConfig env rng sf p = .error { sf with isRunning := false }) ∧
      (validateConfig p = true →
        ∃ sf2, updateConfig env rng sf p = .ok sf2 ∧
          sf2.config = mergeConfig sf.config p ∧
          sf2.isRunning = sf.isRunning) := by
  intro env rng sf p
  constructor
  · intro hv
    simp only [updateConfig, hv]
    rfl
  · intro hv
    simp only [updateConfig, hv, if_true]
    by_cases hsc : p.starCount.isSome = true
    · rw [if_pos hsc]
      exact ⟨_, rfl, rfl, rfl⟩
    · rw [if_neg hsc]
      by_cases hst : (p.starColors.isSome || p.starSize.isSome) = true
      · rw [if_pos hst]
        exact ⟨_, rfl, rfl, rfl⟩
      · rw [if_neg hst]
        exact ⟨_, rfl, rfl, rfl⟩

/-- Witness for C7: an over-range speed on a running instance yields the
error state with the instance left stopped. -/
theorem updateConfig_atomic_witness :
    updateConfig ⟨.missing, false⟩ (fun _ => ⟨0, 0, 0, 0, 0⟩)
        ⟨defaults, 0, [], true⟩ { emptyPatch with speed := some 20 }
      = .error ⟨defaults, 0, [], false⟩ := by
  have h := (updateConfig_atomic_spec ⟨.missing, false⟩ (fun _ => ⟨0, 0, 0, 0, 0⟩)
      ⟨defaults, 0, [], true⟩ { emptyPatch with speed := some 20 }).1
  exact h (by norm_num [validateConfig, emptyPatch, okOpt, okOptInt])

/-- Counterexample to C9 as stated: with `maxStarCount = 1000` and a
cached value of 5000, clamping to `[100, maxStarCount]` would give 1000,
but the code discards the out-of-range cached value and returns the
desktop heuristic 500 instead. -/
theorem detect_cached_cex :
    detectDeviceCapability ⟨.val 5000, false⟩
        { defaults with maxStarCount := 1000 } = 500 ∧
    (max 100 (min ({ defaults with maxStarCount := 1000 } : Config).maxStarCount
      5000) : ℤ) = 1000 ∧
    (500 : ℤ) ≠ 1000 := by
  refine ⟨?_, by norm_num [defaults], by norm_num⟩
  norm_num [detectDeviceCapability, heuristicCount, defaults]

/-- C9 (amended): at cold start with `starCount: 'auto'` the persisted
count is used as the initial count only when it lies within
`[100, maxStarCount]` (it is accepted unmodified, not clamped); an
absent, unreadable, unparsable, out-of-range, or throwing cache silently
falls back to the configured device-heuristic count, and the lookup never
raises. -/
theorem detect_cached_spec :
    ∀ (env : DetectEnv) (cfg : Config),
      (∀ n : ℤ, env.cache = .val n → 100 ≤ n → n ≤ cfg.maxStarCount →
        detectDeviceCapability env cfg = n) ∧
      (∀ n : ℤ, env.cache = .val n → ¬(100 ≤ n ∧ n ≤ cfg.maxStarCount) →
        detectDeviceCapability env cfg = heuristicCount env cfg) ∧
      ((env.cache = .throws ∨ env.cache = .missing ∨ env.cache = .nan) →
        detectDeviceCapability env cfg = heuristicCount env cfg) ∧
      (cfg.starCount = .auto →
        initialStarCount env cfg = detectDeviceCapability env cfg) := by
  intro env cfg
  refine ⟨?_, ?_, ?_, ?_⟩
  · intro n hc h1 h2
    rw [detectDeviceCapability.eq_def, hc]
    show (if 100 ≤ n ∧ n ≤ cfg.maxStarCount then n else heuristicCount env cfg) = n
    rw [if_pos ⟨h1, h2⟩]
  · intro n hc hno
    rw [detectDeviceCapability.eq_def, hc]
    show (if 100 ≤ n ∧ n ≤ cfg.maxStarCount then n else heuristicCount env cfg)
        = heuristicCount env cfg
    rw [if_neg hno]
  · intro hc
    rcases hc with h | h | h <;> rw [detectDeviceCapability.eq_def, h]
  · intro ha
    rw [initialStarCount.eq_def, ha]

/-- Witness for C9: an in-range cached value of 800 is used as-is. -/
theorem detect_cached_witness :
    detectDeviceCapability ⟨.val 800, false⟩
        { defaults with maxStarCount := 1000 } = 800 := by
  exact (detect_cached_spec ⟨.val 800, false⟩
    { defaults with maxStarCount := 1000 }).1 800 rfl (by norm_num)
    (by norm_num [defaults])

/-- C10: when an update carries `starCount` together with `starColors`
and/or `starSize`, the style-resampling branch is skipped (it runs only
when `starCount` is absent), so the update only appends or truncates:
every kept particle of the prefix is preserved bit-identically, retaining
its previous `baseSize` and `hue`. -/
theorem updateConfig_count_style_spec :
    ∀ (env : DetectEnv) (rng : ℕ → Rand) (sf : SF) (p : ConfigPatch),
      p.starCount.isSome = true →
      (p.starColors.isSome = true ∨ p.starSize.isSome = true) →
      validateConfig p = true →
      ∃ sf2, updateConfig env rng sf p = .ok sf2 ∧
        ∀ (i : ℕ) (p0 : Particle), i < sf.stars.length → i < sf2.stars.length →
          sf2.stars.getD i p0 = sf.stars.getD i p0 := by
  intro env rng sf p hsc _hstyle hv
  simp only [updateConfig, hv, if_true, hsc]
  refine ⟨_, rfl, ?_⟩
  intro i p0 h1 h2
  exact applyCountStars_getD_kept _ _ _ _ _ i p0 h1 h2

/-- Witness for C10: an update setting both the count and a scalar hue
leaves the single existing particle untouched. -/
theorem updateConfig_count_style_witness :
    (updateConfig ⟨.missing, false⟩ (fun _ => ⟨0, 0, 0, 0, 0⟩)
        ⟨defaults, 1, [⟨1, 2, 3, 4, 5⟩], false⟩
        { emptyPatch with
          starCount := some (.fixed 1)
          starColors := some ⟨some (.scalar 0), none, none⟩ }).isOk = true := by
  obtain ⟨sf2, heq, _⟩ := updateConfig_count_style_spec ⟨.missing, false⟩
    (fun _ => ⟨0, 0, 0, 0, 0⟩) ⟨defaults, 1, [⟨1, 2, 3, 4, 5⟩], false⟩
    { emptyPatch with
      starCount := some (.fixed 1)
      starColors := some ⟨some (.scalar 0), none, none⟩ }
    rfl (Or.inl rfl)
    (by norm_num [validateConfig, emptyPatch, okOpt, okOptInt])
  rw [heq]
  rfl

end Starfield
